import Mathlib

/-!
Shallow embedding of the `peek` terminal Kubernetes dashboard (Go), covering
the per-resource refresh scheduler (events table), the timeframe editor, the
notification queue, the context/namespace pickers, the navigation tree and
the key-dispatch loop of the bubbletea model.

Conventions of the embedding:
* Go `time.Time` instants and `time.Duration` values are both modelled as
  `Int` nanoseconds; the Go zero value `time.Time{}` is `0`, and
  `time.Since(t)` evaluated at instant `now` is `now - t`.
* Go `error` values are `Option String` (`none` = `nil`); functions that in
  Go perform a network call take the call's result as an explicit argument.
* Go string operations are modelled characterwise; the strings that occur in
  this program are ASCII, where Go's byte-level operations and the
  char-level definitions below agree.
* lipgloss styling is presentation-only; renderers are modelled by the
  branch they commit to (which early `return` fires), not the styled text.
-/

namespace Peek

/-- Go `time.Second` in nanoseconds. -/
def nanosPerSecond : Int := 1000000000

/-- `k8s.EventInfo`: one row of the events table (fields from `src/k8s/events.go`
as used by `events_table.go`). Timestamps are `Int` nanoseconds. -/
structure EventInfo where
  etype : String
  reason : String
  object : String
  message : String
  count : Int
  eventNamespace : String
  firstTimestamp : Int
  lastTimestamp : Int
  deriving DecidableEq, Repr

/-- `ui.EventsTable` (events_table.go). `kubeConfigPresent` models whether the
`kubeConfig` pointer is non-nil; the client itself is external. Constant
presentation fields are omitted. -/
structure EventsTable where
  events : List EventInfo
  lastUpdate : Int
  contextName : String
  timeframeMin : Int
  isLoading : Bool
  error : Option String
  kubeConfigPresent : Bool
  deriving DecidableEq, Repr

/-- `NewEventsTable(kubeConfig, contextName)`: default timeframe 10 minutes,
loading flag set, no events, zero `lastUpdate`. -/
def newEventsTable (kubeConfigPresent : Bool) (contextName : String) : EventsTable :=
  { events := []
    lastUpdate := 0
    contextName := contextName
    timeframeMin := 10
    isLoading := true
    error := none
    kubeConfigPresent := kubeConfigPresent }

/-- `EventsTable.SetTimeframe(minutes)`: when `minutes > 0`, set the timeframe,
zero `lastUpdate` (forcing the next refresh check), and clear `events`. -/
def EventsTable.setTimeframe (et : EventsTable) (minutes : Int) : EventsTable :=
  if 0 < minutes then
    { et with timeframeMin := minutes, lastUpdate := 0, events := [] }
  else et

/-- `EventsTable.GetTimeframe()`. -/
def EventsTable.getTimeframe (et : EventsTable) : Int := et.timeframeMin

/-- `EventsTable.Update()`. The Go method calls
`et.kubeConfig.GetEvents(et.contextName, et.timeframeMin)`, a network call;
here its outcome is the explicit argument `fetch`, and `now` is the instant
`time.Now()` read on success. Returns the updated table and the returned
`error`. -/
def EventsTable.update (et : EventsTable) (fetch : Except String (List EventInfo))
    (now : Int) : EventsTable × Option String :=
  if et.kubeConfigPresent = false then
    (et, some "kubeconfig not available")
  else
    let et1 : EventsTable :=
      { et with isLoading := if et.events.isEmpty then true else et.isLoading,
                error := none }
    match fetch with
    | .error e => ({ et1 with error := some e, isLoading := false }, some e)
    | .ok evs =>
        ({ et1 with events := evs, lastUpdate := now, isLoading := false }, none)

/-- `EventsTable.ShouldUpdate()`: `time.Since(et.lastUpdate) > 15*time.Second`,
evaluated at instant `now`. -/
def EventsTable.shouldUpdate (et : EventsTable) (now : Int) : Bool :=
  15 * nanosPerSecond < now - et.lastUpdate

/-- Which branch of `EventsTable.Render()` commits (its early returns, in
source order). `table` carries the events that the table body iterates over
(display is capped at 50 rows purely for rendering). -/
inductive EventsRenderCase where
  | loadingScreen
  | errorScreen (msg : String)
  | emptyTable
  | table (events : List EventInfo)
  deriving DecidableEq, Repr

/-- The branch structure of `EventsTable.Render()`: loading screen iff
`isLoading && len(events) == 0 && lastUpdate.IsZero()`; otherwise the error
message iff `error != nil`; otherwise the no-events message iff the list is
empty; otherwise the table. -/
def EventsTable.renderCase (et : EventsTable) : EventsRenderCase :=
  if et.isLoading ∧ et.events.isEmpty ∧ et.lastUpdate = 0 then
    .loadingScreen
  else
    match et.error with
    | some e => .errorScreen e
    | none => if et.events.isEmpty then .emptyTable else .table et.events

/-- Go `strconv.Atoi`: optional single leading sign, then at least one decimal
digit; anything else is an error. (For values beyond the `int64` range Go
additionally reports `ErrRange`; the only caller, `HandleTimeframeInput`,
rejects such inputs either way, via its own `> 1440` bound.) -/
def goAtoi (s : String) : Except Unit Int :=
  match s.toList with
  | [] => .error ()
  | c :: rest =>
      let (neg, digits) :=
        if c = '-' then (true, rest)
        else if c = '+' then (false, rest)
        else (false, c :: rest)
      if digits.isEmpty then .error ()
      else if digits.all Char.isDigit then
        let n : Nat := digits.foldl (fun acc d => acc * 10 + (d.toNat - '0'.toNat)) 0
        .ok (if neg then -(n : Int) else (n : Int))
      else .error ()

/-- `EventsTable.HandleTimeframeInput(input)`: parse with `strconv.Atoi`,
reject non-numbers, values `<= 0` and values `> 1440`, otherwise apply
`SetTimeframe`. Returns the updated table and the returned `error`. -/
def EventsTable.handleTimeframeInput (et : EventsTable) (input : String) :
    EventsTable × Option String :=
  match goAtoi input with
  | .error _ => (et, some "invalid timeframe: must be a number in minutes")
  | .ok minutes =>
      if minutes ≤ 0 then (et, some "timeframe must be greater than 0 minutes")
      else if 1440 < minutes then
        (et, some "timeframe cannot exceed 1440 minutes (24 hours)")
      else (et.setTimeframe minutes, none)

/-- Go `strings.ToLower`, characterwise (the repository's candidate strings
are ASCII, where Go's Unicode lowering and `Char.toLower` agree). -/
def goToLower (s : String) : List Char := s.toList.map Char.toLower

/-- Go `strings.HasPrefix(s, pre)` on the characters of the two strings. -/
def goHasPre : List Char → List Char → Bool
  | _, [] => true
  | [], _ :: _ => false
  | c :: cs, p :: ps => c = p && goHasPre cs ps

/-- `fuzzyMatchContext(str, pattern)` (context_selector.go): does `pattern`
occur in `str` as an in-order, not necessarily contiguous subsequence? The Go
loop walks `str` once, advancing in `pattern` on every match. -/
def fuzzyMatchContext : List Char → List Char → Bool
  | _, [] => true
  | [], _ :: _ => false
  | c :: cs, p :: ps =>
      if c = p then fuzzyMatchContext cs ps else fuzzyMatchContext cs (p :: ps)

/-- The pure core of `ContextSelector.filterContexts()`: empty query keeps
everything; otherwise one pass appends the lowercase-prefix matches in
original order, and a second pass appends the remaining subsequence matches
in original order. -/
def filterContextList (contexts : List String) (searchQuery : String) : List String :=
  if searchQuery = "" then contexts
  else
    let query := goToLower searchQuery
    contexts.filter (fun c => goHasPre (goToLower c) query) ++
      contexts.filter (fun c =>
        !goHasPre (goToLower c) query && fuzzyMatchContext (goToLower c) query)

/-- `ui.ContextSelector` (context_selector.go). Width/height and the spinner
frames are constant presentation data and omitted; nothing in the model's
update paths reads them. -/
structure ContextSelector where
  contexts : List String
  filteredContexts : List String
  cursor : Nat
  searchQuery : String
  isOpen : Bool
  selectedContext : String
  originalContext : String
  isConnecting : Bool
  connectionError : String
  deriving DecidableEq, Repr

/-- `NewContextSelector(contexts, currentContext)`: cursor on the current
context if present (else 0), open on launch, no search, idle connection. -/
def newContextSelector (contexts : List String) (currentContext : String) :
    ContextSelector :=
  { contexts := contexts
    filteredContexts := contexts
    cursor := (contexts.findIdx? (fun ctx => ctx = currentContext)).getD 0
    searchQuery := ""
    isOpen := true
    selectedContext := currentContext
    originalContext := currentContext
    isConnecting := false
    connectionError := "" }

/-- `ContextSelector.Open()`: reset search and connection state, cursor to the
currently selected context when it appears in the (reset) filtered list. -/
def ContextSelector.openSelector (cs : ContextSelector) : ContextSelector :=
  let filtered := cs.contexts
  { cs with
      isOpen := true
      searchQuery := ""
      filteredContexts := filtered
      isConnecting := false
      connectionError := ""
      cursor := match filtered.findIdx? (fun ctx => ctx = cs.selectedContext) with
                | some i => i
                | none => cs.cursor }

/-- `ContextSelector.Close()`. -/
def ContextSelector.closeSelector (cs : ContextSelector) : ContextSelector :=
  { cs with isOpen := false, searchQuery := "", cursor := 0 }

/-- `ContextSelector.MoveUp()`. -/
def ContextSelector.moveUp (cs : ContextSelector) : ContextSelector :=
  if 0 < cs.cursor then { cs with cursor := cs.cursor - 1 } else cs

/-- `ContextSelector.MoveDown()`. -/
def ContextSelector.moveDown (cs : ContextSelector) : ContextSelector :=
  if cs.cursor + 1 < cs.filteredContexts.length then
    { cs with cursor := cs.cursor + 1 }
  else cs

/-- `ContextSelector.Select()`: record the highlighted context as candidate;
deliberately does not close (the caller waits for connection validation). -/
def ContextSelector.selectCandidate (cs : ContextSelector) : ContextSelector :=
  match cs.filteredContexts.get? cs.cursor with
  | some ctx => { cs with selectedContext := ctx }
  | none => cs

/-- `ContextSelector.SetConnecting(connecting)`: entering the connecting state
also clears any previous error. -/
def ContextSelector.setConnecting (cs : ContextSelector) (connecting : Bool) :
    ContextSelector :=
  { cs with isConnecting := connecting
            connectionError := if connecting then "" else cs.connectionError }

/-- `ContextSelector.SetConnectionError(err)`: record the error and leave the
connecting state. -/
def ContextSelector.setConnectionError (cs : ContextSelector) (err : String) :
    ContextSelector :=
  { cs with connectionError := err, isConnecting := false }

/-- `ContextSelector.ClearError()`. -/
def ContextSelector.clearError (cs : ContextSelector) : ContextSelector :=
  { cs with connectionError := "" }

/-- `ContextSelector.UpdateSearch(query)`: store the query, refilter, cursor
to the top. -/
def ContextSelector.updateSearch (cs : ContextSelector) (query : String) :
    ContextSelector :=
  { cs with searchQuery := query
            filteredContexts := filterContextList cs.contexts query
            cursor := 0 }

/-- The status area of `ContextSelector.Render()` (lines 266-279): a spinner
while connecting, the error text when `connectionError != ""`, else nothing. -/
inductive SelectorStatus where
  | connecting
  | failed (msg : String)
  | idle
  deriving DecidableEq, Repr

/-- Which status the context picker renders. -/
def ContextSelector.status (cs : ContextSelector) : SelectorStatus :=
  if cs.isConnecting then .connecting
  else if cs.connectionError ≠ "" then .failed cs.connectionError
  else .idle

/-- `ui.NamespaceSelector` (loading.go). Width/height omitted. -/
structure NamespaceSelector where
  namespaces : List String
  filteredNamespaces : List String
  cursor : Nat
  searchQuery : String
  isOpen : Bool
  selectedNamespace : String
  deriving DecidableEq, Repr

/-- `NamespaceSelector.UpdateNamespaces(namespaces, currentNamespace)`:
replace the list (with the synthetic "All namespaces" entry first), reset
search and cursor. -/
def NamespaceSelector.updateNamespaces (ns : NamespaceSelector)
    (namespaces : List String) (currentNamespace : String) : NamespaceSelector :=
  let withAll := "All namespaces" :: namespaces
  { ns with namespaces := withAll
            filteredNamespaces := withAll
            selectedNamespace := currentNamespace
            cursor := 0
            searchQuery := "" }

/-- `NamespaceSelector.Open()`. -/
def NamespaceSelector.openSelector (ns : NamespaceSelector) : NamespaceSelector :=
  { ns with isOpen := true, searchQuery := "", cursor := 0
            filteredNamespaces := ns.namespaces }

/-- `NamespaceSelector.Close()`. -/
def NamespaceSelector.closeSelector (ns : NamespaceSelector) : NamespaceSelector :=
  { ns with isOpen := false, searchQuery := "", cursor := 0 }

/-- `NamespaceSelector.GetSelectedNamespace()`: empty string displays as
"All namespaces". -/
def NamespaceSelector.getSelectedNamespace (ns : NamespaceSelector) : String :=
  if ns.selectedNamespace = "" then "All namespaces" else ns.selectedNamespace

/-- `NamespaceSelector.MoveUp()`. -/
def NamespaceSelector.moveUp (ns : NamespaceSelector) : NamespaceSelector :=
  if 0 < ns.cursor then { ns with cursor := ns.cursor - 1 } else ns

/-- `NamespaceSelector.MoveDown()`. -/
def NamespaceSelector.moveDown (ns : NamespaceSelector) : NamespaceSelector :=
  if ns.cursor + 1 < ns.filteredNamespaces.length then
    { ns with cursor := ns.cursor + 1 }
  else ns

/-- `NamespaceSelector.Select()`: commit the highlighted entry ("All
namespaces" commits the empty string) and close. -/
def NamespaceSelector.selectNamespace (ns : NamespaceSelector) : NamespaceSelector :=
  match ns.filteredNamespaces.get? ns.cursor with
  | some opt =>
      let sel := if opt = "All namespaces" then "" else opt
      ({ ns with selectedNamespace := sel } : NamespaceSelector).closeSelector
  | none => ns

/-- `NamespaceSelector.UpdateSearch(query)`; `filterNamespaces` has the same
two-pass prefix-then-subsequence shape as the context selector (with
`fuzzyMatch`, textually identical to `fuzzyMatchContext`). -/
def NamespaceSelector.updateSearch (ns : NamespaceSelector) (query : String) :
    NamespaceSelector :=
  { ns with searchQuery := query
            filteredNamespaces := filterContextList ns.namespaces query
            cursor := 0 }

/-- `k8s.KubeConfig` (unnamed part_003): the committed current context and the
context list; the client plumbing (`config`, `clientConfig`) is external. -/
structure KubeConfig where
  currentContext : String
  contexts : List String
  deriving DecidableEq, Repr

/-- `KubeConfig.SwitchContext(contextName)`: commit the context in memory (and
rebuild the external client config); never touches the on-disk file, never
fails. -/
def KubeConfig.switchContext (k : KubeConfig) (contextName : String) : KubeConfig :=
  { k with currentContext := contextName }

/-- `ui.NotificationType` (timeframe_input.go, second document). -/
inductive NotificationType where
  | info
  | warning
  | error
  | success
  deriving DecidableEq, Repr

/-- `ui.Notification`. `id` is `fmt.Sprintf("%d", time.Now().UnixNano())`;
`timestamp` the creation instant; `duration` the display time. -/
structure Notification where
  id : String
  ntype : NotificationType
  title : String
  message : String
  timestamp : Int
  duration : Int
  deriving DecidableEq, Repr

/-- `ui.NotificationManager`; `maxVisible`/`width` are render-only constants
and omitted. -/
structure NotificationManager where
  notifications : List Notification
  deriving DecidableEq, Repr

/-- `NotificationManager.AddNotification(type, title, message)` at instant
`now`: prepend a 5-second notification, then truncate to 10 entries. -/
def NotificationManager.addNotification (nm : NotificationManager)
    (ntype : NotificationType) (title message : String) (now : Int) :
    NotificationManager :=
  let n : Notification :=
    { id := toString now, ntype := ntype, title := title, message := message
      timestamp := now, duration := 5 * nanosPerSecond }
  let l := n :: nm.notifications
  { nm with notifications := if 10 < l.length then l.take 10 else l }

/-- `NotificationManager.AddError(title, message)` at instant `now`: same
shape, but a 7-second duration. -/
def NotificationManager.addError (nm : NotificationManager)
    (title message : String) (now : Int) : NotificationManager :=
  let n : Notification :=
    { id := toString now, ntype := .error, title := title, message := message
      timestamp := now, duration := 7 * nanosPerSecond }
  let l := n :: nm.notifications
  { nm with notifications := if 10 < l.length then l.take 10 else l }

/-- `NotificationManager.AddWarning`. -/
def NotificationManager.addWarning (nm : NotificationManager)
    (title message : String) (now : Int) : NotificationManager :=
  nm.addNotification .warning title message now

/-- `NotificationManager.AddInfo`. -/
def NotificationManager.addInfo (nm : NotificationManager)
    (title message : String) (now : Int) : NotificationManager :=
  nm.addNotification .info title message now

/-- `NotificationManager.AddSuccess`. -/
def NotificationManager.addSuccess (nm : NotificationManager)
    (title message : String) (now : Int) : NotificationManager :=
  nm.addNotification .success title message now

/-- `NotificationManager.CleanExpired()` at instant `now`: the Go loop builds
`active` by appending every notification with `now.Sub(Timestamp) < Duration`. -/
def NotificationManager.cleanExpired (nm : NotificationManager) (now : Int) :
    NotificationManager :=
  { nm with notifications :=
      (nm.notifications.foldl
        (fun active n => if now - n.timestamp < n.duration then active ++ [n] else active)
        []) }

/-- Go `strings.Contains(s, sub)` on the characters of the two strings. -/
def goContains : List Char → List Char → Bool
  | [], sub => sub.isEmpty
  | c :: rest, sub => goHasPre (c :: rest) sub || goContains rest sub

/-- `models.NavItem` (unnamed part_008). The `Parent` pointer field is never
assigned anywhere in the repository and is omitted. -/
structure NavItem where
  name : String
  items : List String
  expanded : Bool
  level : Int
  deriving DecidableEq, Repr

/-- `models.VisibleItem`. The Go `Parent *NavItem` pointer is only ever
nil-tested or dereferenced for `.Name`; it is modelled as the parent's name. -/
structure VisibleItem where
  name : String
  parent : Option String
  isFolder : Bool
  level : Int
  deriving DecidableEq, Repr

/-- `models.GetInitialNavItems()`. -/
def getInitialNavItems : List NavItem :=
  [ { name := "Overview", items := [], expanded := false, level := 0 },
    { name := "Applications", items := [], expanded := false, level := 0 },
    { name := "Nodes", items := [], expanded := false, level := 0 },
    { name := "Workloads",
      items := ["Overview", "Pods", "Deployments", "DaemonSets", "StatefulSets",
                "ReplicaSets", "ReplicationControllers", "Jobs", "CronJobs"],
      expanded := false, level := 0 },
    { name := "Config",
      items := ["ConfigMaps", "Secrets", "ResourceQuotas", "LimitRanges",
                "HorizontalPodAutoscalers", "PodDisruptionBudgets",
                "PriorityClasses", "RuntimeClasses", "Leases",
                "MutatingWebhookConfigurations", "ValidatingWebhookConfigurations"],
      expanded := false, level := 0 },
    { name := "Network",
      items := ["Services", "Endpoints", "Ingresses", "IngressControllers",
                "NetworkPolicies", "PortForwarding"],
      expanded := false, level := 0 },
    { name := "Storage",
      items := ["PersistentVolumeClaims", "PersistentVolumes", "StorageClasses"],
      expanded := false, level := 0 },
    { name := "Namespaces", items := [], expanded := false, level := 0 },
    { name := "Events", items := [], expanded := false, level := 0 },
    { name := "Helm", items := ["Charts", "Releases"], expanded := false, level := 0 },
    { name := "AccessControl",
      items := ["ServiceAccounts", "ClusterRoles", "Roles", "ClusterRoleBindings",
                "RoleBindings"],
      expanded := false, level := 0 },
    { name := "CustomResources", items := ["Definitions"], expanded := false,
      level := 0 } ]

/-- `ui.LeftPane` (unnamed part_006, richer variant with search). Width/height
are layout-only and omitted. -/
structure LeftPane where
  navItems : List NavItem
  cursor : Nat
  selectedItem : String
  searchMode : Bool
  searchQuery : String
  filteredItems : List VisibleItem
  deriving DecidableEq, Repr

/-- `NewLeftPane`. -/
def newLeftPane : LeftPane :=
  { navItems := getInitialNavItems, cursor := 0, selectedItem := ""
    searchMode := false, searchQuery := "", filteredItems := [] }

/-- The unfiltered flattening loop of `LeftPane.GetVisibleItems()`: each root
in order, followed by its children when expanded. -/
def flattenNavItems : List NavItem → List VisibleItem
  | [] => []
  | it :: rest =>
      { name := it.name, parent := none, isFolder := !it.items.isEmpty,
        level := 0 } ::
        ((if it.expanded then
            it.items.map (fun s =>
              ({ name := s, parent := some it.name, isFolder := false,
                 level := 1 } : VisibleItem))
          else []) ++ flattenNavItems rest)

/-- `LeftPane.GetVisibleItems()`: the filtered list in active search, else the
flattening of the nav tree. -/
def LeftPane.getVisibleItems (lp : LeftPane) : List VisibleItem :=
  if lp.searchMode ∧ lp.searchQuery ≠ "" then lp.filteredItems
  else flattenNavItems lp.navItems

/-- `LeftPane.MoveUp()`. -/
def LeftPane.moveUp (lp : LeftPane) : LeftPane :=
  if 0 < lp.cursor then { lp with cursor := lp.cursor - 1 } else lp

/-- `LeftPane.MoveDown()`. -/
def LeftPane.moveDown (lp : LeftPane) : LeftPane :=
  if lp.cursor + 1 < lp.getVisibleItems.length then
    { lp with cursor := lp.cursor + 1 }
  else lp

/-- The linear scan of `LeftPane.getNavItemIndex(name)`: index of the first
nav item with the given name. -/
def findNavIdx (name : String) : List NavItem → Option Nat
  | [] => none
  | it :: rest =>
      if it.name = name then some 0 else (findNavIdx name rest).map (· + 1)

/-- `LeftPane.getNavItemIndex(name)` (`-1`, here `none`, when absent). -/
def LeftPane.getNavItemIndex (lp : LeftPane) (name : String) : Option Nat :=
  findNavIdx name lp.navItems

/-- The cursor-relocation scan of `ToggleExpand`/`Collapse`: the first visible
row with the given name and a nil parent (a root row). -/
def findRootIdx (name : String) : List VisibleItem → Option Nat
  | [] => none
  | ni :: rest =>
      if ni.name = name ∧ ni.parent = none then some 0
      else (findRootIdx name rest).map (· + 1)

/-- The cursor-relocation scan of `ToggleSearch`: the first visible row with
the given name whose parent matches the remembered parent name (empty string
standing for a nil parent, exactly as the Go code reconstructs it). -/
def findRowIdx (name parentName : String) : List VisibleItem → Option Nat
  | [] => none
  | ni :: rest =>
      if ni.name = name ∧
          ((parentName = "" ∧ ni.parent = none) ∨
            (parentName ≠ "" ∧ ni.parent = some parentName)) then some 0
      else (findRowIdx name parentName rest).map (· + 1)

/-- `LeftPane.ToggleExpand()`: on a root with children, flip `Expanded`,
re-find the row by name among roots to fix the cursor, and report that no
selection happened; on a childless root or a child row, record the selection
and report it. -/
def LeftPane.toggleExpand (lp : LeftPane) : LeftPane × Bool :=
  let vis := lp.getVisibleItems
  match vis.get? lp.cursor with
  | none => (lp, false)
  | some item =>
      match item.parent with
      | some parentName =>
          ({ lp with selectedItem := parentName ++ " > " ++ item.name }, true)
      | none =>
          match lp.getNavItemIndex item.name with
          | none => ({ lp with selectedItem := item.name }, true)
          | some idx =>
              match lp.navItems.get? idx with
              | none => ({ lp with selectedItem := item.name }, true)
              | some navIt =>
                  if navIt.items.isEmpty then
                    ({ lp with selectedItem := item.name }, true)
                  else
                    let navItems' :=
                      lp.navItems.set idx { navIt with expanded := !navIt.expanded }
                    let lp1 := { lp with navItems := navItems' }
                    let newVis := lp1.getVisibleItems
                    let cursor' :=
                      match findRootIdx item.name newVis with
                      | some i => i
                      | none => lp1.cursor
                    ({ lp1 with cursor := cursor' }, false)

/-- `LeftPane.Collapse()`: on a root row, force `Expanded := false` on the
first nav item of that name and re-find the row; no-op on child rows. -/
def LeftPane.collapse (lp : LeftPane) : LeftPane :=
  let vis := lp.getVisibleItems
  match vis.get? lp.cursor with
  | none => lp
  | some item =>
      match item.parent with
      | some _ => lp
      | none =>
          let navItems' :=
            match lp.getNavItemIndex item.name with
            | some idx =>
                match lp.navItems.get? idx with
                | some navIt => lp.navItems.set idx { navIt with expanded := false }
                | none => lp.navItems
            | none => lp.navItems
          let lp1 := { lp with navItems := navItems' }
          let cursor' :=
            match findRootIdx item.name lp1.getVisibleItems with
            | some i => i
            | none => lp1.cursor
          { lp1 with cursor := cursor' }

/-- `LeftPane.filterItems(query)` (search-time flattening): include a root when
its lowercase name contains the query or some child does; under an included
root include all children when the root name matches, else only the matching
children. -/
def LeftPane.filterItems (lp : LeftPane) (query : String) : List VisibleItem :=
  if query = "" then []
  else
    let q := goToLower query
    lp.navItems.foldr
      (fun it acc =>
        let parentMatches := goContains (goToLower it.name) q
        let hasMatchingChildren := it.items.any (fun s => goContains (goToLower s) q)
        if parentMatches || hasMatchingChildren then
          ({ name := it.name, parent := none, isFolder := !it.items.isEmpty,
             level := 0 } : VisibleItem) ::
            ((it.items.filter
                (fun s => parentMatches || goContains (goToLower s) q)).map
              (fun s =>
                ({ name := s, parent := some it.name, isFolder := false,
                   level := 1 } : VisibleItem)) ++ acc)
        else acc)
      []

/-- `LeftPane.UpdateSearch(query)`. -/
def LeftPane.updateSearch (lp : LeftPane) (query : String) : LeftPane :=
  { lp with searchQuery := query, filteredItems := lp.filterItems query,
            cursor := 0 }

/-- `LeftPane.ToggleSearch()`: flip search mode; when leaving search, clear the
query/filter and try to re-find the previously highlighted row (matching name
and parent) in the unfiltered view, else reset the cursor to 0. -/
def LeftPane.toggleSearch (lp : LeftPane) : LeftPane :=
  let current : Option VisibleItem :=
    if lp.searchMode then lp.getVisibleItems.get? lp.cursor else none
  let lp1 := { lp with searchMode := !lp.searchMode }
  if lp1.searchMode then lp1
  else
    let lp2 := { lp1 with searchQuery := "", filteredItems := [] }
    match current with
    | none => { lp2 with cursor := 0 }
    | some cur =>
        let curParentName := match cur.parent with | some p => p | none => ""
        match findRowIdx cur.name curParentName lp2.getVisibleItems with
        | some i => { lp2 with cursor := i }
        | none => { lp2 with cursor := 0 }

/-- `ui.TimeframeInput` (timeframe_input.go). Placeholder/title/width/height
are constant presentation data and omitted. The buffer is kept as the list of
its characters (Go slices bytes; the two agree on the ASCII content reachable
here). -/
structure TimeframeInput where
  isOpen : Bool
  input : List Char
  deriving DecidableEq, Repr

/-- `NewTimeframeInput()`. -/
def newTimeframeInput : TimeframeInput := { isOpen := false, input := [] }

/-- `TimeframeInput.Open()`. -/
def TimeframeInput.openInput (ti : TimeframeInput) : TimeframeInput :=
  { ti with isOpen := true, input := [] }

/-- `TimeframeInput.Close()`. -/
def TimeframeInput.closeInput (ti : TimeframeInput) : TimeframeInput :=
  { ti with isOpen := false, input := [] }

/-- Go lexicographic string `<` on characters (byte order and code-point order
agree on ASCII). -/
def goStrLt : List Char → List Char → Bool
  | [], [] => false
  | [], _ :: _ => true
  | _ :: _, [] => false
  | a :: as, b :: bs => if a < b then true else if b < a then false else goStrLt as bs

/-- Go string `<=`: `a <= b` iff `¬(b < a)`. -/
def goStrLe (a b : List Char) : Bool := !goStrLt b a

/-- `TimeframeInput.AddChar(char)`: append the keystroke's string only when
`char >= "0" && char <= "9"` (Go lexicographic comparison). -/
def TimeframeInput.addChar (ti : TimeframeInput) (char : List Char) : TimeframeInput :=
  if goStrLe ['0'] char && goStrLe char ['9'] then
    { ti with input := ti.input ++ char }
  else ti

/-- `TimeframeInput.Backspace()`: drop the final character when the buffer is
non-empty. -/
def TimeframeInput.backspace (ti : TimeframeInput) : TimeframeInput :=
  if 0 < ti.input.length then { ti with input := ti.input.dropLast } else ti

/-- `app.FocusedPane`. -/
inductive FocusedPane where
  | left
  | right
  deriving DecidableEq, Repr

/-- `ui.RightPane` (unnamed part_005, richer variant): the selected item, the
search-mode mirror, the lazily created per-resource tables (only the events
table is modelled; the other tables are structurally identical), and whether
the `KubeConfig` pointer is set. Rendering caches are presentation-only. -/
structure RightPane where
  selectedItem : String
  searchMode : Bool
  eventsTable : Option EventsTable
  kubeConfigPresent : Bool
  deriving DecidableEq, Repr

/-- `RightPane.SetSelectedItem`. -/
def RightPane.setSelectedItem (rp : RightPane) (item : String) : RightPane :=
  { rp with selectedItem := item }

/-- `RightPane.SetSearchMode`. -/
def RightPane.setSearchMode (rp : RightPane) (b : Bool) : RightPane :=
  { rp with searchMode := b }

/-- Does `RightPane.renderEvents()` launch a background fetch
(`go eventsTable.Update()`)? With no table yet it creates one and triggers the
initial load (when the `KubeConfig` pointer is set); with a table it fetches
exactly when `ShouldUpdate()` holds — no other condition is consulted. -/
def RightPane.renderEventsStartsFetch (rp : RightPane) (now : Int) : Bool :=
  match rp.eventsTable with
  | none => rp.kubeConfigPresent
  | some et => et.shouldUpdate now

/-- Does `RightPane.UpdateEvents()` launch a background fetch? It does so
whenever the events table exists, unconditionally. -/
def RightPane.updateEventsStartsFetch (rp : RightPane) : Bool :=
  rp.eventsTable.isSome

/-- The keys the dispatch loop in `Model.Update` distinguishes: the dedicated
chords and types it compares against, a printable key whose `msg.String()` is
a single character, and anything else. -/
inductive Key where
  | ctrlQ
  | escape
  | enter
  | up
  | down
  | backspace
  | ctrlN
  | ctrlK
  | char (c : Char)
  | other
  deriving DecidableEq, Repr

/-- The commands `Model.Update` can return on a key event: nothing, `tea.Quit`,
or `testContextConnectionCmd(kubeConfig, context)`. -/
inductive TeaCmd where
  | nothing
  | quit
  | testContextConnection (ctx : String)
  deriving DecidableEq, Repr

/-- `app.Model` (app.go). The footer and the loading spinner are render-only;
`notifications` and `timeframeInput` are created unconditionally in
`InitialModel` and therefore not optional. -/
structure Model where
  leftPane : LeftPane
  rightPane : RightPane
  namespaceSelector : Option NamespaceSelector
  contextSelector : Option ContextSelector
  notifications : NotificationManager
  kubeConfig : Option KubeConfig
  timeframeInput : TimeframeInput
  isLoading : Bool
  isConnected : Bool
  initError : Option String
  focusedPane : FocusedPane
  deriving DecidableEq, Repr

/-- `contextConnectionResultMsg`. -/
structure ContextConnectionResultMsg where
  context : String
  namespaces : List String
  currentNamespace : String
  err : Option String
  deriving DecidableEq, Repr

/-- The `contextConnectionResultMsg` arm of `Model.Update` (app.go 186-208),
at instant `now` (timestamp of the success notification): with no selector,
nothing happens; on error, only the selector's error state changes; on
success, the context is committed via `SwitchContext`, the namespace list is
replaced, the right pane gets the (unchanged pointer) kube config, the
selector closes, Overview is selected with the left pane focused, and a
success notification is added. -/
def Model.applyContextConnectionResult (m : Model)
    (msg : ContextConnectionResultMsg) (now : Int) : Model :=
  match m.contextSelector with
  | none => m
  | some cs =>
      match msg.err with
      | some e => { m with contextSelector := some (cs.setConnectionError e) }
      | none =>
          { m with
              kubeConfig := m.kubeConfig.map (fun k => k.switchContext msg.context)
              namespaceSelector := m.namespaceSelector.map
                (fun ns => ns.updateNamespaces msg.namespaces msg.currentNamespace)
              rightPane :=
                ({ m.rightPane with
                    kubeConfigPresent := m.kubeConfig.isSome } : RightPane).setSelectedItem
                  "Overview"
              contextSelector := some cs.closeSelector
              isConnected := true
              leftPane := { m.leftPane with selectedItem := "Overview" }
              focusedPane := .left
              notifications := m.notifications.addSuccess "Context switched"
                ("Now using context: " ++ msg.context) now }

/-- The left-pane search-mode and normal-mode key handling (app.go 369-454),
reached when no overlay consumed the key. -/
def Model.updateKeyPanes (m : Model) (k : Key) : Model × TeaCmd :=
  if m.leftPane.searchMode ∧ m.focusedPane = .left then
    match k with
    | .char '1' => ({ m with focusedPane := .left }, .nothing)
    | .char '2' => ({ m with focusedPane := .right }, .nothing)
    | .escape =>
        let lp := m.leftPane.toggleSearch
        ({ m with leftPane := lp,
                  rightPane := m.rightPane.setSearchMode lp.searchMode }, .nothing)
    | .enter =>
        let (lp, resourceSelected) := m.leftPane.toggleExpand
        let rp := m.rightPane.setSelectedItem lp.selectedItem
        if resourceSelected then
          let lp2 := lp.toggleSearch
          ({ m with leftPane := lp2, rightPane := rp.setSearchMode lp2.searchMode,
                    focusedPane := .right }, .nothing)
        else ({ m with leftPane := lp, rightPane := rp }, .nothing)
    | .up => ({ m with leftPane := m.leftPane.moveUp }, .nothing)
    | .down => ({ m with leftPane := m.leftPane.moveDown }, .nothing)
    | .backspace =>
        if m.leftPane.searchQuery ≠ "" then
          let lp := m.leftPane.updateSearch (String.mk m.leftPane.searchQuery.toList.dropLast)
          ({ m with leftPane := lp }, .nothing)
        else (m, .nothing)
    | .char c =>
        ({ m with leftPane :=
            m.leftPane.updateSearch (m.leftPane.searchQuery ++ String.mk [c]) },
          .nothing)
    | _ => (m, .nothing)
  else
    match k with
    | .char '1' => ({ m with focusedPane := .left }, .nothing)
    | .char '2' => ({ m with focusedPane := .right }, .nothing)
    | .ctrlN =>
        match m.namespaceSelector with
        | some ns => ({ m with namespaceSelector := some ns.openSelector }, .nothing)
        | none => (m, .nothing)
    | .ctrlK =>
        match m.contextSelector with
        | some cs => ({ m with contextSelector := some cs.openSelector }, .nothing)
        | none => (m, .nothing)
    | .char '/' =>
        if m.focusedPane = .left then
          let lp := m.leftPane.toggleSearch
          ({ m with leftPane := lp,
                    rightPane := m.rightPane.setSearchMode lp.searchMode }, .nothing)
        else (m, .nothing)
    | .up =>
        if m.focusedPane = .left then
          ({ m with leftPane := m.leftPane.moveUp }, .nothing)
        else (m, .nothing)
    | .down =>
        if m.focusedPane = .left then
          ({ m with leftPane := m.leftPane.moveDown }, .nothing)
        else (m, .nothing)
    | .char 't' =>
        if m.focusedPane = .right ∧
            goContains (goToLower m.leftPane.selectedItem) "events".toList then
          ({ m with timeframeInput := m.timeframeInput.openInput }, .nothing)
        else (m, .nothing)
    | .enter =>
        if m.focusedPane = .left then
          let (lp, resourceSelected) := m.leftPane.toggleExpand
          let rp := m.rightPane.setSelectedItem lp.selectedItem
          ({ m with leftPane := lp, rightPane := rp,
                    focusedPane := if resourceSelected then .right else m.focusedPane },
            .nothing)
        else (m, .nothing)
    | .escape =>
        if m.focusedPane = .left then
          ({ m with leftPane := m.leftPane.collapse }, .nothing)
        else (m, .nothing)
    | _ => (m, .nothing)

/-- The namespace-selector overlay branch (app.go 340-367), falling through to
the pane handling when the overlay is closed. -/
def Model.updateKeyNamespace (m : Model) (k : Key) (now : Int) : Model × TeaCmd :=
  match m.namespaceSelector with
  | some nsel =>
      if nsel.isOpen then
        match k with
        | .escape =>
            ({ m with namespaceSelector := some nsel.closeSelector }, .nothing)
        | .enter =>
            let previous := nsel.getSelectedNamespace
            let nsel1 := nsel.selectNamespace
            let newNamespace := nsel1.getSelectedNamespace
            let m1 := { m with namespaceSelector := some nsel1 }
            if newNamespace ≠ previous then
              let nm := m1.notifications.addInfo "Namespace changed" ("Now using namespace: " ++ newNamespace) now
              ({ m1 with notifications := nm }, .nothing)
            else (m1, .nothing)
        | .up => ({ m with namespaceSelector := some nsel.moveUp }, .nothing)
        | .down => ({ m with namespaceSelector := some nsel.moveDown }, .nothing)
        | .backspace =>
            if nsel.searchQuery ≠ "" then
              let nsel1 := nsel.updateSearch (String.mk nsel.searchQuery.toList.dropLast)
              ({ m with namespaceSelector := some nsel1 }, .nothing)
            else (m, .nothing)
        | .char c =>
            let nsel1 := nsel.updateSearch (nsel.searchQuery ++ String.mk [c])
            ({ m with namespaceSelector := some nsel1 }, .nothing)
        | _ => (m, .nothing)
      else m.updateKeyPanes k
  | none => m.updateKeyPanes k

/-- The timeframe-input overlay branch (app.go 311-337), falling through when
the overlay is closed. On enter with a non-empty buffer the events table (when
it exists) handles the input; a failure adds an error notification, success a
confirmation; the box closes either way. -/
def Model.updateKeyTimeframe (m : Model) (k : Key) (now : Int) : Model × TeaCmd :=
  if m.timeframeInput.isOpen then
    match k with
    | .escape => ({ m with timeframeInput := m.timeframeInput.closeInput }, .nothing)
    | .enter =>
        let input := m.timeframeInput.input
        let m1 :=
          if input ≠ [] then
            match m.rightPane.eventsTable with
            | some et =>
                let (et1, res) := et.handleTimeframeInput (String.mk input)
                let m2 := { m with rightPane :=
                    { m.rightPane with eventsTable := some et1 } }
                match res with
                | some err =>
                    let nm := m2.notifications.addError "Invalid Input" err now
                    { m2 with notifications := nm }
                | none =>
                    let okMsg := "Now showing events from the past " ++ String.mk input ++ " minutes"
                    let nm := m2.notifications.addSuccess "Timeframe Updated" okMsg now
                    { m2 with notifications := nm }
            | none => m
          else m
        ({ m1 with timeframeInput := m1.timeframeInput.closeInput }, .nothing)
    | .backspace =>
        ({ m with timeframeInput := m.timeframeInput.backspace }, .nothing)
    | .char c =>
        ({ m with timeframeInput := m.timeframeInput.addChar [c] }, .nothing)
    | _ => (m, .nothing)
  else m.updateKeyNamespace k now

/-- The `tea.KeyMsg` arm of `Model.Update` (app.go 254-454): quit is always
honored first; all other input is dropped while loading or after a fatal init
error; an open context picker consumes everything next (and swallows all input
while connecting); then the timeframe box, the namespace picker, and finally
the panes. -/
def Model.updateKey (m : Model) (k : Key) (now : Int) : Model × TeaCmd :=
  if k = .ctrlQ then (m, .quit)
  else if m.isLoading ∨ m.initError.isSome then (m, .nothing)
  else
    match m.contextSelector with
    | some cs =>
        if cs.isOpen then
          if cs.isConnecting then (m, .nothing)
          else
            match k with
            | .escape =>
                if ¬m.isConnected then (m, .nothing)
                else ({ m with contextSelector := some cs.closeSelector }, .nothing)
            | .enter =>
                let cs1 := cs.selectCandidate
                let newContext := cs1.selectedContext
                let cs2 := (cs1.clearError).setConnecting true
                ({ m with contextSelector := some cs2 },
                  .testContextConnection newContext)
            | .up => ({ m with contextSelector := some cs.moveUp }, .nothing)
            | .down => ({ m with contextSelector := some cs.moveDown }, .nothing)
            | .backspace =>
                if cs.searchQuery ≠ "" then
                  let cs1 := cs.updateSearch (String.mk cs.searchQuery.toList.dropLast)
                  ({ m with contextSelector := some cs1 }, .nothing)
                else (m, .nothing)
            | .char c =>
                let cs1 := cs.updateSearch (cs.searchQuery ++ String.mk [c])
                ({ m with contextSelector := some cs1 }, .nothing)
            | _ => (m, .nothing)
        else m.updateKeyTimeframe k now
    | none => m.updateKeyTimeframe k now

/-- A concrete event row used in counterexamples and witnesses. -/
def sampleEvent : EventInfo :=
  { etype := "Warning", reason := "BackOff", object := "pod/web-1"
    message := "Back-off restarting failed container", count := 3
    eventNamespace := "default", firstTimestamp := 10, lastTimestamp := 20 }

/-- A right pane whose events table exists and is in its initial load (the
table's own `isLoading` marker is set while that first background `Update()`
is still running). -/
def rpInFlight : RightPane :=
  { selectedItem := "Events", searchMode := false
    eventsTable := some (newEventsTable true "prod"), kubeConfigPresent := true }

/-- The events table after a successful fetch of one event at instant 100 and
then a failed fetch at instant 200. -/
def etEarlierOkThenFail : EventsTable :=
  (((newEventsTable true "prod").update (.ok [sampleEvent]) 100).1.update
    (.error "connection refused") 200).1

/-- C1, counterexample. After a successful fetch of one event and then a
failed fetch, the previously fetched items are still cached in the state, yet
`Render` commits to the error-message branch, not the table: the claim that
an error message is rendered only when no items have ever been populated is
false on the code. -/
theorem C1_counterexample :
    etEarlierOkThenFail.events = [sampleEvent] ∧
    etEarlierOkThenFail.renderCase = .errorScreen "connection refused" ∧
    EventsRenderCase.errorScreen "connection refused" ≠
      EventsRenderCase.table [sampleEvent] := by
  refine ⟨rfl, rfl, ?_⟩
  intro h
  exact EventsRenderCase.noConfusion h

/-- C1 (amended): a failed fetch retains the previously fetched `items` in the
table state (`Update` never discards them), but `Render` shows the error
message whenever the most recent fetch failed, regardless of whether items
were ever populated; the cached items reappear only after a later successful
fetch clears `error`. -/
theorem C1_stale_items_kept_but_error_rendered (et : EventsTable) (e : String)
    (now : Int) (hk : et.kubeConfigPresent = true) :
    (et.update (.error e) now).1.events = et.events ∧
    (et.update (.error e) now).1.renderCase = .errorScreen e ∧
    (et.update (.ok et.events) now).1.renderCase ≠ .errorScreen e := by
  have hk' : ¬ et.kubeConfigPresent = false := by simp [hk]
  refine ⟨?_, ?_, ?_⟩
  · simp [EventsTable.update, hk']
  · simp [EventsTable.update, hk', EventsTable.renderCase]
  · simp [EventsTable.update, hk', EventsTable.renderCase]
    split <;> simp

/-- C1, witness. -/
theorem C1_stale_items_kept_but_error_rendered_witness :
    (((newEventsTable true "prod").update (.ok [sampleEvent]) 100).1.kubeConfigPresent
        = true) ∧
    ((((newEventsTable true "prod").update (.ok [sampleEvent]) 100).1.update
        (.error "boom") 200).1.events = [sampleEvent]) :=
  ⟨rfl,
    (C1_stale_items_kept_but_error_rendered
      ((newEventsTable true "prod").update (.ok [sampleEvent]) 100).1 "boom" 200
      rfl).1.trans rfl⟩

/-- C4, counterexample. Ranking `["podcast", "pod-a", "apod"]` against `"pod"`
does not yield `["pod-a", "podcast", "apod"]`: the two-pass filter preserves
the original relative order inside the prefix tier, so `"podcast"` stays
ahead of `"pod-a"`. -/
theorem C4_counterexample :
    filterContextList ["podcast", "pod-a", "apod"] "pod" ≠
      ["pod-a", "podcast", "apod"] := by
  intro h
  have h2 : filterContextList ["podcast", "pod-a", "apod"] "pod" =
      ["podcast", "pod-a", "apod"] := rfl
  rw [h2] at h
  exact absurd (List.head_eq_of_cons_eq h) (by simp)

/-- C4 (amended): ranking `["podcast", "pod-a", "apod"]` against `"pod"`
yields exactly `["podcast", "pod-a", "apod"]`: both prefix matches come before
the subsequence-only match, and the original order is preserved within each
tier (so `"podcast"` before `"pod-a"`). -/
theorem C4_rank_order :
    filterContextList ["podcast", "pod-a", "apod"] "pod" =
      ["podcast", "pod-a", "apod"] := rfl

/-- C5: before any fetch has completed the last-fetch timestamp is the zero
value and `ShouldUpdate` holds (at any wall-clock instant later than 15
seconds after the zero time, which every Go `time.Now()` is); immediately
after a successful fetch it is false; and afterwards it holds exactly when
more than 15 seconds have elapsed since that fetch. -/
theorem C5_refresh_schedule :
    (∀ (now : Int) (ctx : String), 15 * nanosPerSecond < now →
      (newEventsTable true ctx).shouldUpdate now = true) ∧
    (∀ (et : EventsTable) (evs : List EventInfo) (now : Int),
      et.kubeConfigPresent = true →
      ((et.update (.ok evs) now).1).shouldUpdate now = false) ∧
    (∀ (et : EventsTable) (evs : List EventInfo) (t now : Int),
      et.kubeConfigPresent = true →
      ((((et.update (.ok evs) t).1).shouldUpdate now = true) ↔
        15 * nanosPerSecond < now - t)) := by
  refine ⟨?_, ?_, ?_⟩
  · intro now ctx h
    simp only [EventsTable.shouldUpdate, newEventsTable, decide_eq_true_eq]
    omega
  · intro et evs now hk
    have hk' : ¬ et.kubeConfigPresent = false := by simp [hk]
    simp [EventsTable.update, hk', EventsTable.shouldUpdate, nanosPerSecond]
  · intro et evs t now hk
    have hk' : ¬ et.kubeConfigPresent = false := by simp [hk]
    simp [EventsTable.update, hk', EventsTable.shouldUpdate]

/-- C5, witness. -/
theorem C5_refresh_schedule_witness :
    (newEventsTable true "prod").shouldUpdate (16 * nanosPerSecond) = true ∧
    (((newEventsTable true "prod").update (.ok [sampleEvent]) 100).1).shouldUpdate 100
      = false ∧
    ((((newEventsTable true "prod").update (.ok [sampleEvent]) 100).1).shouldUpdate
        (101 + 15 * nanosPerSecond) = true) :=
  ⟨C5_refresh_schedule.1 (16 * nanosPerSecond) "prod" (by norm_num [nanosPerSecond]),
    C5_refresh_schedule.2.1 (newEventsTable true "prod") [sampleEvent] 100 rfl,
    (C5_refresh_schedule.2.2 (newEventsTable true "prod") [sampleEvent] 100
        (101 + 15 * nanosPerSecond) rfl).mpr (by norm_num [nanosPerSecond])⟩

/-- C6: timeframe input handling rejects non-numeric input and values outside
`1..1440` with an error and no state change; an in-range value updates the
timeframe and zeroes the last-fetch timestamp, so the next refresh check
fires. -/
theorem C6_timeframe_validation (et : EventsTable) (input : String) :
    (goAtoi input = .error () →
      (et.handleTimeframeInput input).1 = et ∧
      ((et.handleTimeframeInput input).2).isSome = true) ∧
    (∀ v : Int, goAtoi input = .ok v → (v ≤ 0 ∨ 1440 < v) →
      (et.handleTimeframeInput input).1 = et ∧
      ((et.handleTimeframeInput input).2).isSome = true) ∧
    (∀ v : Int, goAtoi input = .ok v → 1 ≤ v → v ≤ 1440 →
      (et.handleTimeframeInput input).1.timeframeMin = v ∧
      (et.handleTimeframeInput input).1.lastUpdate = 0 ∧
      (et.handleTimeframeInput input).2 = none ∧
      (∀ now : Int, 15 * nanosPerSecond < now →
        (et.handleTimeframeInput input).1.shouldUpdate now = true)) := by
  refine ⟨?_, ?_, ?_⟩
  · intro h
    simp [EventsTable.handleTimeframeInput, h]
  · intro v hok hout
    rcases hout with h | h
    · simp [EventsTable.handleTimeframeInput, hok, h]
    · have h0 : ¬ v ≤ 0 := by omega
      simp [EventsTable.handleTimeframeInput, hok, h0, h]
  · intro v hok h1 h1440
    have h0 : ¬ v ≤ 0 := by omega
    have h1440' : ¬ 1440 < v := by omega
    have hv : 0 < v := by omega
    refine ⟨?_, ?_, ?_, ?_⟩
    · simp [EventsTable.handleTimeframeInput, hok, h0, h1440',
        EventsTable.setTimeframe, hv]
    · simp [EventsTable.handleTimeframeInput, hok, h0, h1440',
        EventsTable.setTimeframe, hv]
    · simp [EventsTable.handleTimeframeInput, hok, h0, h1440']
    · intro now h
      simp [EventsTable.handleTimeframeInput, hok, h0, h1440',
        EventsTable.setTimeframe, hv, EventsTable.shouldUpdate]
      omega

/-- C6, witness. -/
theorem C6_timeframe_validation_witness :
    (((newEventsTable true "prod").handleTimeframeInput "abc").1 =
        newEventsTable true "prod") ∧
    (((newEventsTable true "prod").handleTimeframeInput "0").1 =
        newEventsTable true "prod") ∧
    (((newEventsTable true "prod").handleTimeframeInput "99999").1 =
        newEventsTable true "prod") ∧
    (((newEventsTable true "prod").handleTimeframeInput "45").1.timeframeMin = 45) ∧
    (((newEventsTable true "prod").handleTimeframeInput "45").1.lastUpdate = 0) :=
  ⟨(C6_timeframe_validation (newEventsTable true "prod") "abc").1 rfl |>.1,
    ((C6_timeframe_validation (newEventsTable true "prod") "0").2.1 0 rfl
      (Or.inl (by norm_num))).1,
    ((C6_timeframe_validation (newEventsTable true "prod") "99999").2.1 99999 rfl
      (Or.inr (by norm_num))).1,
    ((C6_timeframe_validation (newEventsTable true "prod") "45").2.2 45 rfl
      (by norm_num) (by norm_num)).1,
    ((C6_timeframe_validation (newEventsTable true "prod") "45").2.2 45 rfl
      (by norm_num) (by norm_num)).2.1⟩

/-- C7, counterexample. The events table of `rpInFlight` is in its initial
background load (`isLoading` is the marker `Update()` itself maintains), yet a
tick-driven refresh request (`UpdateEvents`) still launches another background
fetch, and so does `renderEvents` once the 15-second timer allows: the
claimed in-flight no-op guard does not exist. -/
theorem C7_counterexample :
    (rpInFlight.eventsTable.map EventsTable.isLoading = some true) ∧
    rpInFlight.updateEventsStartsFetch = true ∧
    rpInFlight.renderEventsStartsFetch (16 * nanosPerSecond) = true := by
  refine ⟨rfl, rfl, ?_⟩
  simp [rpInFlight, RightPane.renderEventsStartsFetch, newEventsTable,
    EventsTable.shouldUpdate, nanosPerSecond]

/-- C7 (amended): refresh requests are not guarded by any in-flight state:
`UpdateEvents` starts a background fetch whenever the events table exists,
and `renderEvents` starts one exactly when the purely time-based
`ShouldUpdate` allows, which is insensitive to the table's `isLoading`
marker — concurrent duplicate fetches are possible. -/
theorem C7_no_inflight_guard (rp : RightPane) (et : EventsTable) (now : Int)
    (b : Bool) (h : rp.eventsTable = some et) :
    rp.updateEventsStartsFetch = true ∧
    rp.renderEventsStartsFetch now = et.shouldUpdate now ∧
    EventsTable.shouldUpdate { et with isLoading := b } now = et.shouldUpdate now := by
  refine ⟨?_, ?_, rfl⟩
  · simp [RightPane.updateEventsStartsFetch, h]
  · simp [RightPane.renderEventsStartsFetch, h]

/-- C7, witness. -/
theorem C7_no_inflight_guard_witness :
    rpInFlight.updateEventsStartsFetch = true ∧
    rpInFlight.renderEventsStartsFetch 7 =
      (newEventsTable true "prod").shouldUpdate 7 :=
  ⟨(C7_no_inflight_guard rpInFlight (newEventsTable true "prod") 7 true rfl).1,
    (C7_no_inflight_guard rpInFlight (newEventsTable true "prod") 7 true rfl).2.1⟩

/-- The Go append-if loop of `CleanExpired` is a filter. -/
theorem foldl_append_filter {α : Type} (p : α → Prop) [DecidablePred p] :
    ∀ (l acc : List α),
      l.foldl (fun a n => if p n then a ++ [n] else a) acc =
        acc ++ l.filter (fun n => decide (p n))
  | [], acc => by simp
  | x :: xs, acc => by
      by_cases hx : p x
      · simp only [List.foldl_cons, if_pos hx,
          foldl_append_filter p xs (acc ++ [x]), List.filter_cons]
        simp [hx]
      · simp only [List.foldl_cons, if_neg hx,
          foldl_append_filter p xs acc, List.filter_cons]
        simp [hx]

/-- Taking a positive number of elements keeps the head. -/
theorem head_of_take_pos {α : Type} (k : Nat) (hk : 0 < k) (x : α) (xs : List α) :
    ((x :: xs).take k).head? = some x := by
  cases k with
  | zero => omega
  | succ j => simp

/-- Prepending and then capping at 10 puts the new element first and keeps at
most 10 elements. -/
theorem cons_cap_spec (n : Notification) (l : List Notification) :
    (if 10 < (n :: l).length then (n :: l).take 10 else n :: l).head? = some n ∧
    (if 10 < (n :: l).length then (n :: l).take 10 else n :: l).length ≤ 10 := by
  constructor
  · by_cases h : 10 < (n :: l).length
    · rw [if_pos h]
      exact head_of_take_pos 10 (by norm_num) n l
    · rw [if_neg h]
      rfl
  · by_cases h : 10 < (n :: l).length
    · rw [if_pos h]
      simp [List.length_take]
    · rw [if_neg h]
      simp only [List.length_cons, not_lt] at h
      simpa using h

/-- C9: every add operation puts the new notification at index 0 and leaves at
most 10 stored notifications (`AddError` with a 7-second lifetime, the others
with 5 seconds), and `CleanExpired` keeps, in order, exactly the
notifications whose age is strictly below their duration — i.e. removes
exactly those with `now - Timestamp ≥ Duration`. -/
theorem C9_notification_queue :
    (∀ (nm : NotificationManager) (ty : NotificationType) (t msg : String) (now : Int),
      (nm.addNotification ty t msg now).notifications.head? =
        some { id := toString now, ntype := ty, title := t, message := msg,
               timestamp := now, duration := 5 * nanosPerSecond } ∧
      (nm.addNotification ty t msg now).notifications.length ≤ 10) ∧
    (∀ (nm : NotificationManager) (t msg : String) (now : Int),
      (nm.addError t msg now).notifications.head? =
        some { id := toString now, ntype := .error, title := t, message := msg,
               timestamp := now, duration := 7 * nanosPerSecond } ∧
      (nm.addError t msg now).notifications.length ≤ 10) ∧
    (∀ (nm : NotificationManager) (t msg : String) (now : Int),
      (nm.addWarning t msg now).notifications.head? =
        some { id := toString now, ntype := .warning, title := t, message := msg,
               timestamp := now, duration := 5 * nanosPerSecond } ∧
      (nm.addWarning t msg now).notifications.length ≤ 10) ∧
    (∀ (nm : NotificationManager) (t msg : String) (now : Int),
      (nm.addInfo t msg now).notifications.head? =
        some { id := toString now, ntype := .info, title := t, message := msg,
               timestamp := now, duration := 5 * nanosPerSecond } ∧
      (nm.addInfo t msg now).notifications.length ≤ 10) ∧
    (∀ (nm : NotificationManager) (t msg : String) (now : Int),
      (nm.addSuccess t msg now).notifications.head? =
        some { id := toString now, ntype := .success, title := t, message := msg,
               timestamp := now, duration := 5 * nanosPerSecond } ∧
      (nm.addSuccess t msg now).notifications.length ≤ 10) ∧
    (∀ (nm : NotificationManager) (now : Int),
      (nm.cleanExpired now).notifications =
        nm.notifications.filter (fun n => decide (now - n.timestamp < n.duration))) := by
  refine ⟨?_, ?_, ?_, ?_, ?_, ?_⟩
  · intro nm ty t msg now
    exact cons_cap_spec _ nm.notifications
  · intro nm t msg now
    exact cons_cap_spec _ nm.notifications
  · intro nm t msg now
    exact cons_cap_spec _ nm.notifications
  · intro nm t msg now
    exact cons_cap_spec _ nm.notifications
  · intro nm t msg now
    exact cons_cap_spec _ nm.notifications
  · intro nm now
    simpa [NotificationManager.cleanExpired] using
      foldl_append_filter (fun n : Notification => now - n.timestamp < n.duration)
        nm.notifications []

/-- One keystroke-level operation on the timeframe input box. `addChar c`
models `AddChar(msg.String())` for a printable key: the dispatch loop only
calls `AddChar` with a `msg.String()` of byte length 1, i.e. a single ASCII
character. -/
inductive TIOp where
  | openBox
  | closeBox
  | addChar (c : Char)
  | backspace
  deriving DecidableEq, Repr

/-- Apply one operation to the input box. -/
def TimeframeInput.applyOp (ti : TimeframeInput) : TIOp → TimeframeInput
  | .openBox => ti.openInput
  | .closeBox => ti.closeInput
  | .addChar c => ti.addChar [c]
  | .backspace => ti.backspace

/-- Go lexicographic `<` on singleton strings is the character order. -/
theorem goStrLt_singleton (a b : Char) : goStrLt [a] [b] = decide (a < b) := by
  by_cases h1 : a < b
  · simp [goStrLt, h1]
  · by_cases h2 : b < a <;> simp [goStrLt, h1, h2]

/-- `AddChar` of a single character appends exactly when the character is a
decimal digit. -/
theorem addChar_singleton (ti : TimeframeInput) (c : Char) :
    ti.addChar [c] =
      if '0' ≤ c ∧ c ≤ '9' then { ti with input := ti.input ++ [c] } else ti := by
  have h0 : goStrLe ['0'] [c] = decide ('0' ≤ c) := by
    rw [goStrLe, goStrLt_singleton]
    by_cases h : c < '0'
    · simp [h, not_le.mpr h]
    · simp [h, not_lt.mp h]
  have h9 : goStrLe [c] ['9'] = decide (c ≤ '9') := by
    rw [goStrLe, goStrLt_singleton]
    by_cases h : '9' < c
    · simp [h, not_le.mpr h]
    · simp [h, not_lt.mp h]
  rw [TimeframeInput.addChar, h0, h9]
  by_cases hc : '0' ≤ c ∧ c ≤ '9'
  · rw [if_pos hc]
    simp [hc.1, hc.2]
  · rw [if_neg hc]
    have hcond : (decide ('0' ≤ c) && decide (c ≤ '9')) = false := by
      rcases Decidable.not_and_iff_or_not.mp hc with h | h <;> simp [h]
    simp [hcond]

/-- All-digit buffers are preserved by every operation. -/
theorem applyOp_digits (ti : TimeframeInput) (op : TIOp)
    (h : ti.input.all (fun c => decide ('0' ≤ c ∧ c ≤ '9')) = true) :
    (ti.applyOp op).input.all (fun c => decide ('0' ≤ c ∧ c ≤ '9')) = true := by
  cases op with
  | openBox => simp [TimeframeInput.applyOp, TimeframeInput.openInput]
  | closeBox => simp [TimeframeInput.applyOp, TimeframeInput.closeInput]
  | addChar c =>
      rw [TimeframeInput.applyOp, addChar_singleton]
      by_cases hc : '0' ≤ c ∧ c ≤ '9'
      · rw [if_pos hc]
        rw [List.all_eq_true] at h ⊢
        intro x hx
        rcases List.mem_append.mp hx with h1 | h2
        · exact h x h1
        · simp only [List.mem_singleton] at h2
          subst h2
          simpa using hc
      · simpa [if_neg hc] using h
  | backspace =>
      rw [TimeframeInput.applyOp, TimeframeInput.backspace]
      by_cases hl : 0 < ti.input.length
      · simp only [if_pos hl]
        rw [List.all_eq_true] at h ⊢
        intro c hc
        exact h c (List.dropLast_sublist ti.input |>.mem hc)
      · simpa [if_neg hl] using h

/-- C10: starting from a fresh input box, after any sequence of open, close,
single-character add and backspace operations the buffer contains only
decimal digits; adding a non-digit character is a no-op, and backspace on an
empty buffer is a no-op. -/
theorem C10_digit_invariant :
    (∀ ops : List TIOp,
      ((ops.foldl TimeframeInput.applyOp newTimeframeInput).input.all
        (fun c => decide ('0' ≤ c ∧ c ≤ '9'))) = true) ∧
    (∀ (ti : TimeframeInput) (c : Char), ¬('0' ≤ c ∧ c ≤ '9') → ti.addChar [c] = ti) ∧
    (∀ ti : TimeframeInput, ti.input = [] → ti.backspace = ti) := by
  refine ⟨?_, ?_, ?_⟩
  · have main : ∀ (ops : List TIOp) (ti : TimeframeInput),
        ti.input.all (fun c => decide ('0' ≤ c ∧ c ≤ '9')) = true →
        ((ops.foldl TimeframeInput.applyOp ti).input.all
          (fun c => decide ('0' ≤ c ∧ c ≤ '9'))) = true := by
      intro ops
      induction ops with
      | nil => intro ti h; simpa using h
      | cons op rest ih =>
          intro ti h
          exact ih (ti.applyOp op) (applyOp_digits ti op h)
    intro ops
    exact main ops newTimeframeInput (by simp [newTimeframeInput])
  · intro ti c hc
    rw [addChar_singleton, if_neg hc]
  · intro ti h
    simp [TimeframeInput.backspace, h]

/-- C10, witness. -/
theorem C10_digit_invariant_witness :
    (([TIOp.addChar '4', TIOp.addChar 'x', TIOp.addChar '5',
        TIOp.backspace].foldl TimeframeInput.applyOp newTimeframeInput).input.all
      (fun c => decide ('0' ≤ c ∧ c ≤ '9')) = true) ∧
    newTimeframeInput.addChar ['x'] = newTimeframeInput ∧
    newTimeframeInput.backspace = newTimeframeInput :=
  ⟨C10_digit_invariant.1 [TIOp.addChar '4', TIOp.addChar 'x', TIOp.addChar '5',
      TIOp.backspace],
    C10_digit_invariant.2.1 newTimeframeInput 'x' (by decide),
    C10_digit_invariant.2.2 newTimeframeInput rfl⟩

/-- C2: handling a context-connection result is atomic. On an error result the
committed `KubeConfig.CurrentContext` is untouched, the picker's open state is
untouched (it stays open), and the picker records and displays the error
(leaving the connecting state); on a success result the candidate context is
committed via `SwitchContext`, the namespace list becomes the fetched one
(behind the synthetic "All namespaces" entry), the picker closes, and a
success notification is at the front of the queue. -/
theorem C2_context_switch_atomic (m : Model) (msg : ContextConnectionResultMsg)
    (now : Int) (cs : ContextSelector) (hcs : m.contextSelector = some cs) :
    (∀ e, msg.err = some e →
      (m.applyContextConnectionResult msg now).kubeConfig = m.kubeConfig ∧
      (m.applyContextConnectionResult msg now).contextSelector =
        some (cs.setConnectionError e) ∧
      (cs.setConnectionError e).isOpen = cs.isOpen ∧
      (e ≠ "" → (cs.setConnectionError e).status = .failed e)) ∧
    (msg.err = none →
      (∀ k, m.kubeConfig = some k →
        (m.applyContextConnectionResult msg now).kubeConfig =
          some { k with currentContext := msg.context }) ∧
      (∀ nsel, m.namespaceSelector = some nsel →
        (m.applyContextConnectionResult msg now).namespaceSelector.map
          NamespaceSelector.namespaces = some ("All namespaces" :: msg.namespaces)) ∧
      (m.applyContextConnectionResult msg now).contextSelector.map
        ContextSelector.isOpen = some false ∧
      (m.applyContextConnectionResult msg now).notifications.notifications.head? =
        some { id := toString now, ntype := .success, title := "Context switched",
               message := "Now using context: " ++ msg.context, timestamp := now,
               duration := 5 * nanosPerSecond }) := by
  constructor
  · intro e he
    refine ⟨?_, ?_, rfl, ?_⟩
    · simp [Model.applyContextConnectionResult, hcs, he]
    · simp [Model.applyContextConnectionResult, hcs, he]
    · intro hne
      simp [ContextSelector.setConnectionError, ContextSelector.status, hne]
  · intro he
    refine ⟨?_, ?_, ?_, ?_⟩
    · intro k hk
      simp [Model.applyContextConnectionResult, hcs, he, hk, KubeConfig.switchContext]
    · intro nsel hns
      simp [Model.applyContextConnectionResult, hcs, he, hns,
        NamespaceSelector.updateNamespaces]
    · simp [Model.applyContextConnectionResult, hcs, he, ContextSelector.closeSelector]
    · simp [Model.applyContextConnectionResult, hcs, he,
        NotificationManager.addSuccess, NotificationManager.addNotification]
      split <;> simp

/-- A concrete model with the context picker open and validating a candidate
context. -/
def mConnecting : Model :=
  { leftPane := newLeftPane
    rightPane := { selectedItem := "", searchMode := false, eventsTable := none,
                   kubeConfigPresent := true }
    namespaceSelector := some
      { namespaces := ["All namespaces", "default"]
        filteredNamespaces := ["All namespaces", "default"]
        cursor := 0, searchQuery := "", isOpen := false,
        selectedNamespace := "default" }
    contextSelector := some
      { contexts := ["dev", "prod"], filteredContexts := ["dev", "prod"]
        cursor := 1, searchQuery := "", isOpen := true, selectedContext := "prod"
        originalContext := "dev", isConnecting := true, connectionError := "" }
    notifications := { notifications := [] }
    kubeConfig := some { currentContext := "dev", contexts := ["dev", "prod"] }
    timeframeInput := newTimeframeInput
    isLoading := false
    isConnected := true
    initError := none
    focusedPane := .left }

/-- C2, witness. -/
theorem C2_context_switch_atomic_witness :
    (mConnecting.applyContextConnectionResult
      { context := "prod", namespaces := [], currentNamespace := "",
        err := some "connection timeout" } 50).kubeConfig =
        mConnecting.kubeConfig ∧
    (mConnecting.applyContextConnectionResult
      { context := "prod", namespaces := ["default", "kube-system"],
        currentNamespace := "default", err := none } 50).contextSelector.map
        ContextSelector.isOpen = some false := by
  constructor
  · exact ((C2_context_switch_atomic mConnecting
      { context := "prod", namespaces := [], currentNamespace := "",
        err := some "connection timeout" } 50 _ rfl).1 "connection timeout" rfl).1
  · exact ((C2_context_switch_atomic mConnecting
      { context := "prod", namespaces := ["default", "kube-system"],
        currentNamespace := "default", err := none } 50 _ rfl).2 rfl).2.2.1

/-- C3: while the context picker is open with its connection state Connecting,
every key is swallowed — the model is returned unchanged with no command —
except the quit chord, which still quits (and also leaves the model
unchanged). -/
theorem C3_connecting_swallows_keys (m : Model) (cs : ContextSelector) (now : Int)
    (hcs : m.contextSelector = some cs) (hopen : cs.isOpen = true)
    (hconn : cs.isConnecting = true) :
    m.updateKey .ctrlQ now = (m, .quit) ∧
    (∀ k : Key, k ≠ .ctrlQ → m.updateKey k now = (m, .nothing)) := by
  constructor
  · simp [Model.updateKey]
  · intro k hk
    by_cases hl : (m.isLoading = true) ∨ m.initError.isSome = true
    · rcases hl with h | h <;> simp [Model.updateKey, hk, h]
    · push_neg at hl
      simp [Model.updateKey, hk, hl.1, hl.2, hcs, hopen, hconn]

/-- C3, witness. -/
theorem C3_connecting_swallows_keys_witness :
    mConnecting.updateKey .ctrlQ 0 = (mConnecting, .quit) ∧
    mConnecting.updateKey .enter 0 = (mConnecting, .nothing) ∧
    mConnecting.updateKey .escape 0 = (mConnecting, .nothing) ∧
    mConnecting.updateKey (.char 'a') 0 = (mConnecting, .nothing) :=
  ⟨(C3_connecting_swallows_keys mConnecting _ 0 rfl rfl rfl).1,
    (C3_connecting_swallows_keys mConnecting _ 0 rfl rfl rfl).2 .enter (by decide),
    (C3_connecting_swallows_keys mConnecting _ 0 rfl rfl rfl).2 .escape (by decide),
    (C3_connecting_swallows_keys mConnecting _ 0 rfl rfl rfl).2 (.char 'a')
      (by decide)⟩

/-- Outside active search, the visible items are the flattened nav tree. -/
theorem getVisibleItems_no_search (lp : LeftPane) (h : lp.searchMode = false) :
    lp.getVisibleItems = flattenNavItems lp.navItems := by
  simp [LeftPane.getVisibleItems, h]

/-- With pairwise-distinct nav-item names, the linear name scan finds exactly
the index the item sits at. -/
theorem findNavIdx_nodup :
    ∀ (l : List NavItem) (i : Nat) (nav : NavItem),
      (l.map NavItem.name).Nodup → l.get? i = some nav →
      findNavIdx nav.name l = some i
  | [], i, nav, _, hget => by simp at hget
  | x :: xs, 0, nav, _, hget => by
      simp only [List.get?] at hget
      injection hget with hget
      subst hget
      simp [findNavIdx]
  | x :: xs, i + 1, nav, hnd, hget => by
      simp only [List.get?] at hget
      have hmem : nav ∈ xs := List.get?_mem hget
      have hnm : nav.name ∈ xs.map NavItem.name := List.mem_map_of_mem _ hmem
      have hx : x.name ≠ nav.name := by
        intro h
        rw [List.map_cons, List.nodup_cons] at hnd
        exact hnd.1 (h ▸ hnm)
      rw [findNavIdx, if_neg hx,
        findNavIdx_nodup xs i nav ((List.map_cons .. ▸ hnd).of_cons) hget]
      rfl

/-- Every nav item contributes its root row to the flattening. -/
theorem rootEntry_mem_flatten :
    ∀ (l : List NavItem) (i : Nat) (nav : NavItem), l.get? i = some nav →
      ({ name := nav.name, parent := none, isFolder := !nav.items.isEmpty,
         level := 0 } : VisibleItem) ∈ flattenNavItems l
  | [], i, nav, hget => by simp at hget
  | x :: xs, 0, nav, hget => by
      simp only [List.get?] at hget
      injection hget with hget
      subst hget
      simp [flattenNavItems]
  | x :: xs, i + 1, nav, hget => by
      simp only [List.get?] at hget
      have := rootEntry_mem_flatten xs i nav hget
      simp only [flattenNavItems, List.mem_cons, List.mem_append]
      exact Or.inr (Or.inr this)

/-- The root-relocation scan succeeds whenever some root row with the name is
visible. -/
theorem findRootIdx_isSome :
    ∀ (l : List VisibleItem) (v : VisibleItem), v ∈ l → v.parent = none →
      (findRootIdx v.name l).isSome = true
  | [], v, hmem, _ => by simp at hmem
  | x :: xs, v, hmem, hvp => by
      by_cases hx : x.name = v.name ∧ x.parent = none
      · simp [findRootIdx, hx]
      · rcases List.mem_cons.mp hmem with h | h
        · subst h
          exact absurd ⟨rfl, hvp⟩ hx
        · rw [findRootIdx, if_neg hx]
          have := findRootIdx_isSome xs v h hvp
          cases hfr : findRootIdx v.name xs with
          | none => rw [hfr] at this; simp at this
          | some j => simp [hfr]

/-- What the root-relocation scan finds is a root row with the name. -/
theorem findRootIdx_spec :
    ∀ (l : List VisibleItem) (name : String) (j : Nat),
      findRootIdx name l = some j →
      ∃ v, l.get? j = some v ∧ v.name = name ∧ v.parent = none
  | [], name, j, h => by simp [findRootIdx] at h
  | x :: xs, name, j, h => by
      by_cases hx : x.name = name ∧ x.parent = none
      · rw [findRootIdx, if_pos hx] at h
        injection h with h
        subst h
        exact ⟨x, rfl, hx.1, hx.2⟩
      · rw [findRootIdx, if_neg hx] at h
        rcases Option.map_eq_some'.mp h with ⟨j', hj', rfl⟩
        rcases findRootIdx_spec xs name j' hj' with ⟨v, hv, hn, hp⟩
        exact ⟨v, hv, hn, hp⟩

/-- Setting an index to the element already there changes nothing. -/
theorem set_same {α : Type} :
    ∀ (l : List α) (i : Nat) (a : α), l.get? i = some a → l.set i a = l
  | [], _, _, h => by simp at h
  | x :: xs, 0, a, h => by
      simp only [List.get?] at h
      injection h with h
      subst h
      rfl
  | x :: xs, i + 1, a, h => by
      simp only [List.get?] at h
      simp [List.set, set_same xs i a h]

/-- Setting an in-range index makes the element readable there. -/
theorem get?_set_self {α : Type} :
    ∀ (l : List α) (i : Nat) (a b : α), l.get? i = some b →
      (l.set i a).get? i = some a
  | [], _, _, _, h => by simp at h
  | x :: xs, 0, a, b, _ => rfl
  | x :: xs, i + 1, a, b, h => by
      simp only [List.get?] at h
      simpa [List.set] using get?_set_self xs i a b h

/-- Overwriting the same index twice keeps only the second write. -/
theorem set_set {α : Type} :
    ∀ (l : List α) (i : Nat) (a b : α), (l.set i a).set i b = l.set i b
  | [], _, _, _ => rfl
  | x :: xs, 0, a, b => rfl
  | x :: xs, i + 1, a, b => by simp [List.set, set_set xs i a b]

/-- Flipping an `expanded` flag does not change the name sequence. -/
theorem map_name_set_expanded :
    ∀ (l : List NavItem) (i : Nat) (nav : NavItem) (e : Bool),
      l.get? i = some nav →
      (l.set i { nav with expanded := e }).map NavItem.name = l.map NavItem.name
  | [], _, _, _, h => by simp at h
  | x :: xs, 0, nav, e, h => by
      simp only [List.get?] at h
      injection h with h
      subst h
      rfl
  | x :: xs, i + 1, nav, e, h => by
      simp only [List.get?] at h
      simp [List.set, map_name_set_expanded xs i nav e h]

/-- Evaluating `ToggleExpand` on a root row whose nav item has children: the
`Expanded` flag at the item's index flips, the cursor relocates to the root
row the scan finds, and no selection is reported. -/
theorem toggleExpand_folder (lp : LeftPane) (i j1 : Nat) (nav : NavItem)
    (v : VisibleItem)
    (hsm : lp.searchMode = false)
    (hv : (flattenNavItems lp.navItems).get? lp.cursor = some v)
    (hvp : v.parent = none)
    (hfind : findNavIdx v.name lp.navItems = some i)
    (hget : lp.navItems.get? i = some nav)
    (hch : nav.items.isEmpty = false)
    (hj1 : findRootIdx v.name
        (flattenNavItems (lp.navItems.set i { nav with expanded := !nav.expanded }))
      = some j1) :
    lp.toggleExpand =
      ({ lp with
          navItems := lp.navItems.set i { nav with expanded := !nav.expanded }
          cursor := j1 }, false) := by
  have hvis : lp.getVisibleItems = flattenNavItems lp.navItems :=
    getVisibleItems_no_search lp hsm
  have hvis1 :
      ({ lp with navItems :=
          lp.navItems.set i { nav with expanded := !nav.expanded } } :
        LeftPane).getVisibleItems =
        flattenNavItems (lp.navItems.set i { nav with expanded := !nav.expanded }) :=
    getVisibleItems_no_search _ hsm
  simp only [LeftPane.toggleExpand, hvis, hv, hvp, LeftPane.getNavItemIndex, hfind,
    hget, hch, hvis1, hj1]
  rw [if_neg Bool.false_ne_true]

/-- C8: with the cursor on a root folder row (a root nav item that has
children), outside search mode and with pairwise-distinct nav-item names,
toggling twice restores the nav items (hence the folder's `Expanded` flag) and
the flattened visible list exactly, records no selection, and reports "no
selection" both times. -/
theorem C8_toggle_twice (lp : LeftPane) (i : Nat) (nav : NavItem) (v : VisibleItem)
    (hsm : lp.searchMode = false)
    (hnd : (lp.navItems.map NavItem.name).Nodup)
    (hget : lp.navItems.get? i = some nav)
    (hv : lp.getVisibleItems.get? lp.cursor = some v)
    (hvp : v.parent = none)
    (hvn : v.name = nav.name)
    (hch : nav.items ≠ []) :
    lp.toggleExpand.1.toggleExpand.1.navItems = lp.navItems ∧
    lp.toggleExpand.1.toggleExpand.1.getVisibleItems = lp.getVisibleItems ∧
    lp.toggleExpand.1.toggleExpand.1.selectedItem = lp.selectedItem ∧
    lp.toggleExpand.2 = false ∧
    lp.toggleExpand.1.toggleExpand.2 = false := by
  have hvis : lp.getVisibleItems = flattenNavItems lp.navItems :=
    getVisibleItems_no_search lp hsm
  rw [hvis] at hv
  have hch' : nav.items.isEmpty = false := by
    cases h : nav.items with
    | nil => exact absurd h hch
    | cons a l => rfl
  have hfind1 : findNavIdx v.name lp.navItems = some i := by
    rw [hvn]
    exact findNavIdx_nodup lp.navItems i nav hnd hget
  have hget1 :
      (lp.navItems.set i { nav with expanded := !nav.expanded }).get? i =
        some { nav with expanded := !nav.expanded } :=
    get?_set_self lp.navItems i _ nav hget
  have hmem1 := rootEntry_mem_flatten
    (lp.navItems.set i { nav with expanded := !nav.expanded }) i
    { nav with expanded := !nav.expanded } hget1
  have hsome1 := findRootIdx_isSome _ _ hmem1 rfl
  obtain ⟨j1, hj1⟩ := Option.isSome_iff_exists.mp hsome1
  have hj1v : findRootIdx v.name
      (flattenNavItems (lp.navItems.set i { nav with expanded := !nav.expanded }))
      = some j1 := by
    rw [hvn]
    exact hj1
  have step1 := toggleExpand_folder lp i j1 nav v hsm hv hvp hfind1 hget hch' hj1v
  -- Data for the second toggle.
  have hnd1 : ((lp.navItems.set i { nav with expanded := !nav.expanded }).map
      NavItem.name).Nodup := by
    rw [map_name_set_expanded lp.navItems i nav (!nav.expanded) hget]
    exact hnd
  obtain ⟨v1, hv1, hv1n, hv1p⟩ := findRootIdx_spec _ _ _ hj1v
  have hfind2 : findNavIdx v1.name
      (lp.navItems.set i { nav with expanded := !nav.expanded }) = some i := by
    rw [hv1n, hvn]
    exact findNavIdx_nodup _ i { nav with expanded := !nav.expanded } hnd1 hget1
  have hback :
      (lp.navItems.set i { nav with expanded := !nav.expanded }).set i
        { nav with expanded := !(!nav.expanded) } = lp.navItems := by
    rw [set_set, Bool.not_not]
    exact set_same lp.navItems i nav hget
  have hmem2 := rootEntry_mem_flatten lp.navItems i nav hget
  have hsome2 := findRootIdx_isSome _ _ hmem2 rfl
  obtain ⟨j2, hj2⟩ := Option.isSome_iff_exists.mp hsome2
  have hj2v : findRootIdx v1.name
      (flattenNavItems ((lp.navItems.set i
          { nav with expanded := !nav.expanded }).set i
        { nav with expanded := !(!nav.expanded) })) = some j2 := by
    rw [hback, hv1n, hvn]
    exact hj2
  have step2 := toggleExpand_folder
    { lp with navItems := lp.navItems.set i { nav with expanded := !nav.expanded }
              cursor := j1 }
    i j2 { nav with expanded := !nav.expanded } v1 hsm hv1 hv1p hfind2 hget1 hch' hj2v
  rw [step1]
  simp only at step2
  rw [step2]
  refine ⟨hback, ?_, rfl, rfl, rfl⟩
  rw [getVisibleItems_no_search _ hsm, hback]
  exact getVisibleItems_no_search _ hsm

/-- A fresh left pane with the cursor on the "Workloads" folder row. -/
def lpWorkloads : LeftPane := { newLeftPane with cursor := 3 }

/-- C8, witness. -/
theorem C8_toggle_twice_witness :
    lpWorkloads.toggleExpand.1.toggleExpand.1.navItems = lpWorkloads.navItems ∧
    lpWorkloads.toggleExpand.1.toggleExpand.1.getVisibleItems =
      lpWorkloads.getVisibleItems ∧
    lpWorkloads.toggleExpand.1.toggleExpand.1.selectedItem =
      lpWorkloads.selectedItem ∧
    lpWorkloads.toggleExpand.2 = false ∧
    lpWorkloads.toggleExpand.1.toggleExpand.2 = false :=
  C8_toggle_twice lpWorkloads 3
    { name := "Workloads",
      items := ["Overview", "Pods", "Deployments", "DaemonSets", "StatefulSets",
                "ReplicaSets", "ReplicationControllers", "Jobs", "CronJobs"],
      expanded := false, level := 0 }
    { name := "Workloads", parent := none, isFolder := true, level := 0 }
    rfl (by decide) rfl rfl rfl rfl (by decide)

end Peek

